import Mathlib

/-!
Verification of the kicad-plugins repository (madron/kicad-plugins).

The repository contains two KiCad action plugins:
  * `src/jlc/plugin.py` (class `JlcPlugin`): exports gerber/drill files,
    renames them, zips them, and writes two CSVs — a BOM (`generate_bom`)
    and a component placement list (`generate_position`).
  * `src/pcb2gcode/plugin.py` (class `Pcb2GcodePlugin`): the milling
    pipeline, exporting gerber and drill files.

This file gives a shallow embedding of the portable logic of both plugins:
the BOM grouping loop, the placement normalisation (Y mirroring and rotation
normalisation), the rotation-override loader, the run orchestration of both
`Run` methods, and the gerber plot-parameter configuration.  External
toolkit effects (the plotting engine, the excellon writer, the filesystem)
are modelled as always-succeeding opaque steps: their failures are owned by
the host toolkit, not by this code.  Python machine arithmetic on board
coordinates and angles is embedded exactly, with `Int` and `Rat` (Python
ints are unbounded; float rounding is abstracted to exact rationals, and
Python's float formatting is abstracted to exact decimal/rational
rendering).
-/

namespace KicadPlugins

/-! ## Python primitives used by the embedded code -/

/-- Python `int(x)` applied to a (real-valued) rotation: truncation toward
zero.  On an exact rational `q = num / den` this is T-division of the
numerator by the denominator. -/
def pyTrunc (q : ℚ) : ℤ := q.num.tdiv (q.den : ℤ)

/-- ASCII lower-casing of one character, as Python's `str.lower` does on
the ASCII range (the only range the plugin compares, against `'skip'`). -/
def pyLowerChar (c : Char) : Char :=
  if 'A' ≤ c ∧ c ≤ 'Z' then Char.ofNat (c.toNat + 32) else c

/-- Python `s.lower()` (ASCII range). -/
def pyLower (s : String) : String := (s.data.map pyLowerChar).asString

/-- Python `a or b` for strings: `a` when `a` is non-empty (truthy),
otherwise `b`.  This embeds `component.getField("LCSC") or lcsc_pn`. -/
def pyOrString (a b : String) : String := if a = "" then b else a

/-- Python `s.split(sep)` for a one-character separator: split at every
occurrence, keeping empty pieces (so a string with no separator yields the
one-element list holding the whole string). -/
def pySplitAux (sep : Char) : List Char → List Char → List (List Char)
  | cur, [] => [cur.reverse]
  | cur, c :: rest =>
      if c = sep then cur.reverse :: pySplitAux sep [] rest
      else pySplitAux sep (c :: cur) rest

/-- Python `s.split(sep)` on strings. -/
def pySplit (s : String) (sep : Char) : List String :=
  (pySplitAux sep [] s.data).map List.asString

/-- Errors appearing in the embedded code: `IndexError` from
`split(':')[1]` on a colon-free footprint, `yaml.YAMLError` (a parse error)
from `yaml.safe_load` on a malformed override file, `NameError` from an
unbound global, and `UnboundLocalError` from reading `c` before assignment. -/
inductive PyError where
  | indexError : PyError
  | parseError : PyError
  | nameError : String → PyError
  | unboundLocal : String → PyError
deriving DecidableEq, Repr

instance {ε α : Type} [DecidableEq ε] [DecidableEq α] : DecidableEq (Except ε α) := fun
  | .error e, .error f =>
      if h : e = f then .isTrue (by rw [h])
      else .isFalse fun hc => h (Except.error.inj hc)
  | .error _, .ok _ => .isFalse fun hc => Except.noConfusion hc
  | .ok _, .error _ => .isFalse fun hc => Except.noConfusion hc
  | .ok a, .ok b =>
      if h : a = b then .isTrue (by rw [h])
      else .isFalse fun hc => h (Except.ok.inj hc)

/-! ## Data model

`BomComponent` embeds the view of a netlist component used by
`JlcPlugin.generate_bom` (accessors `getRef`, `getValue`, `getDescription`,
`getFootprint`, `getField("LCSC")`; an absent LCSC field reads as the empty
string).  `PcbModule` embeds the view of a board module used by
`JlcPlugin.generate_position` (accessors `GetLayerName`, `GetReference`,
`GetCenter`, `GetOrientationDegrees`); `center.x`/`center.y` are the
board's native integer units (nanometres). -/

structure BomComponent where
  ref : String
  value : String
  description : String
  footprint : String
  lcsc : String
deriving DecidableEq, Repr

structure PcbModule where
  ref : String
  layerName : String
  centerX : ℤ
  centerY : ℤ
  orientationDegrees : ℚ
deriving DecidableEq, Repr

/-- One emitted BOM CSV row, with the reference list kept as a list (the
CSV cell is its comma-join, see `bomCsvRow`). -/
structure BomRow where
  comment : String
  designators : List String
  footprint : String
  lcsc : String
deriving DecidableEq, Repr

/-- The CSV cells of a BOM row, as written by
`out.writerow([c.getValue() + " " + c.getDescription(), ",".join(refs),
c.getFootprint().split(':')[1], lcsc_pn])`. -/
def bomCsvRow (row : BomRow) : List String :=
  [row.comment, String.intercalate "," row.designators, row.footprint, row.lcsc]

/-- One emitted placement (cpl) CSV row.  `midX`/`midY` are the exact
millimetre values; `midXStr`/`midYStr` are the rendered cells, with
Python's float formatting abstracted to exact rational rendering followed
by the literal `"mm"` suffix of `'{}mm'.format(...)`. -/
structure PositionRow where
  designator : String
  midX : ℚ
  midXStr : String
  midY : ℚ
  midYStr : String
  layer : String
  rotation : ℤ
deriving DecidableEq, Repr

/-! ## Rotation override loader (`JlcPlugin.generate_position`, head)

The override file `jlc-rotation-override.yml` is optional.  The code sets
`rotation_overrides = dict()` and replaces it with `yaml.safe_load(stream)`
only when `os.path.isfile` says the file exists; a present but malformed
file makes `yaml.safe_load` raise a parse error.  A well-formed file is a
mapping from reference strings to integer degree adjustments. -/

inductive OverrideFile where
  | absent : OverrideFile
  | malformed : OverrideFile
  | wellFormed : List (String × ℤ) → OverrideFile
deriving DecidableEq, Repr

def loadOverrides : OverrideFile → Except PyError (List (String × ℤ))
  | .absent => .ok []
  | .malformed => .error .parseError
  | .wellFormed table => .ok table

/-- `rotation_overrides.get(ref, 0)`: dictionary lookup defaulting to 0. -/
def overrideLookup (table : List (String × ℤ)) (ref : String) : ℤ :=
  match table.find? (fun p => p.1 == ref) with
  | some p => p.2
  | none => 0

/-! ## Placement normalisation (`JlcPlugin.generate_position`, body) -/

/-- `rotation = (360 + int(rotation) + rotation_override) % 360`. -/
def computeRotation (d : ℚ) (o : ℤ) : ℤ := (360 + pyTrunc d + o) % 360

/-- The Python float cell `'{}mm'.format(v)`, with the float rendering
abstracted to exact rational rendering. -/
def mmCell (v : ℚ) : String := toString v ++ "mm"

/-- The body of the `for module in self.board.GetModules()` loop: skip
modules whose layer name is not `'F.Cu'` and modules with the sentinel
reference `'REF**'`; otherwise emit a row with `x = center.x / 1000000`,
`y = -center.y / 1000000` (Python true division of integers, embedded as
the exact rational `Rat.divInt`), layer code `'T'` and the normalised
rotation. -/
def positionRow (table : List (String × ℤ)) (m : PcbModule) : Option PositionRow :=
  if m.layerName ≠ "F.Cu" then none
  else if m.ref = "REF**" then none
  else
    some
      { designator := m.ref
        midX := Rat.divInt m.centerX 1000000
        midXStr := mmCell (Rat.divInt m.centerX 1000000)
        midY := Rat.divInt (-m.centerY) 1000000
        midYStr := mmCell (Rat.divInt (-m.centerY) 1000000)
        layer := "T"
        rotation := computeRotation m.orientationDegrees (overrideLookup table m.ref) }

/-- The rows of `cpl.csv`, in module iteration order. -/
def generatePositionRows (table : List (String × ℤ)) (modules : List PcbModule) :
    List PositionRow :=
  modules.filterMap (positionRow table)

/-! ## BOM grouping (`JlcPlugin.generate_bom`)

The netlist reader pre-groups components (`net.groupComponents()`); per
group the code runs

```
refs = []
lcsc_pn = ''
for component in group:
    ref = component.getRef()
    if ref == 'REF**':
        continue
    lcsc_pn = component.getField("LCSC") or lcsc_pn
    if lcsc_pn.lower() == 'skip':
        continue
    refs.append(ref)
    c = component
if len(refs) == 0:
    continue
out.writerow([c.getValue() + " " + c.getDescription(), ",".join(refs),
              c.getFootprint().split(':')[1], lcsc_pn])
```

The loop state is the growing `refs` list, the running `lcsc_pn` string,
and the last component bound to `c` (absent until the first append). -/

structure GroupState where
  refs : List String
  pn : String
  c : Option BomComponent
deriving DecidableEq, Repr

/-- One iteration of the inner `for component in group` loop.  The updated
`lcsc_pn` is `pyOrString comp.lcsc st.pn` in every non-sentinel branch. -/
def groupStep (st : GroupState) (comp : BomComponent) : GroupState :=
  if comp.ref = "REF**" then st
  else if pyLower (pyOrString comp.lcsc st.pn) = "skip" then
    { st with pn := pyOrString comp.lcsc st.pn }
  else
    { refs := st.refs ++ [comp.ref], pn := pyOrString comp.lcsc st.pn, c := some comp }

/-- The whole inner loop: fold `groupStep` over the group from the initial
state `refs = []`, `lcsc_pn = ''`, `c` unbound. -/
def groupScan (group : List BomComponent) : GroupState :=
  group.foldl groupStep { refs := [], pn := "", c := none }

/-- `c.getFootprint().split(':')[1]`: the element at index 1 of the colon
split, `none` when the split has fewer than two pieces (Python raises
`IndexError` there). -/
def bomFootprint (s : String) : Option String := (pySplit s ':').get? 1

/-- The per-group output: `none` when the group is dropped (`refs` empty),
an error when the footprint access raises, otherwise the row.  A nonempty
`refs` with `c` unbound would be Python's `UnboundLocalError`; it is
unreachable because every append also assigns `c`. -/
def rowOfGroup (group : List BomComponent) : Except PyError (Option BomRow) :=
  if (groupScan group).refs = [] then .ok none
  else
    match (groupScan group).c with
    | none => .error (.unboundLocal "c")
    | some c =>
      match bomFootprint c.footprint with
      | none => .error .indexError
      | some fp =>
          .ok (some
            { comment := c.value ++ " " ++ c.description
              designators := (groupScan group).refs
              footprint := fp
              lcsc := (groupScan group).pn })

/-- The rows of `bom.csv`, in group order; the first raising group aborts
the export with its error, exactly as the Python loop would. -/
def generateBomRows : List (List BomComponent) → Except PyError (List BomRow)
  | [] => .ok []
  | g :: gs =>
    match rowOfGroup g with
    | .error e => .error e
    | .ok none => generateBomRows gs
    | .ok (some row) =>
      match generateBomRows gs with
      | .error e => .error e
      | .ok rows => .ok (row :: rows)

/-! ## Run orchestration (`JlcPlugin.Run`)

`Run` executes, in order: `prepare`, `generate_gerber`, `generate_drill`,
`rename_files`, `generate_gerber_zipfile`, `generate_bom`,
`generate_position`.  The first five steps only drive the host toolkit and
the filesystem and are modelled as always succeeding; the embedded logic
can fail in `generate_bom` (footprint `IndexError`) and in
`generate_position` (override-file parse error, raised by
`yaml.safe_load` before the cpl file is opened). -/

inductive JlcStep where
  | prepare | gerber | drill | rename | zipfile | bom | position
deriving DecidableEq, Repr

structure JlcEnv where
  overrideFile : OverrideFile
  groups : List (List BomComponent)
  modules : List PcbModule
deriving Repr

/-- The outcome of one `JlcPlugin.Run` invocation: the list of steps that
completed, the cpl rows written (empty when the run aborts earlier), and
success or the propagated exception. -/
def jlcRun (env : JlcEnv) : List JlcStep × List PositionRow × Except PyError Unit :=
  let pre := [JlcStep.prepare, JlcStep.gerber, JlcStep.drill, JlcStep.rename,
              JlcStep.zipfile]
  match generateBomRows env.groups with
  | .error e => (pre, [], .error e)
  | .ok _ =>
    match loadOverrides env.overrideFile with
    | .error e => (pre ++ [JlcStep.bom], [], .error e)
    | .ok table =>
        (pre ++ [JlcStep.bom, JlcStep.position],
         generatePositionRows table env.modules, .ok ())

/-! ## The milling plugin (`src/pcb2gcode/plugin.py`)

The module imports only `os` and `pcbnew`, yet `Pcb2GcodePlugin.prepare`
ends with `shutil.rmtree(self.fab_dir)` (twice) inside
`try/except FileNotFoundError`.  Evaluating the global name `shutil`
raises `NameError`, which is not a `FileNotFoundError` and therefore
propagates out of `prepare` and out of `Run` before `generate_gerber`,
`generate_drill` or `rename_files` start. -/

def pcb2gcodeModuleImports : List String := ["os", "pcbnew"]

/-- Looking up a global name of the `pcb2gcode.plugin` module. -/
def resolveGlobal (imports : List String) (n : String) : Except PyError Unit :=
  if n ∈ imports then .ok () else .error (.nameError n)

/-- `Pcb2GcodePlugin.prepare`: path and manifest assignments (using `os`
and `pcbnew`), then the `fab`/`jlc` directory cleanup that evaluates the
name `shutil`. -/
def pcb2gcodePrepare (imports : List String) : Except PyError Unit := do
  resolveGlobal imports "os"
  resolveGlobal imports "pcbnew"
  resolveGlobal imports "shutil"
  resolveGlobal imports "os"

inductive MillStep where
  | prepare | gerber | drill | rename
deriving DecidableEq, Repr

/-- `Pcb2GcodePlugin.Run`: `prepare`, `generate_gerber`, `generate_drill`,
`rename_files`; an exception in `prepare` aborts the rest. -/
def pcb2gcodeRun (imports : List String) : List MillStep × Except PyError Unit :=
  match pcb2gcodePrepare imports with
  | .error e => ([], .error e)
  | .ok _ =>
      ([MillStep.prepare, MillStep.gerber, MillStep.drill, MillStep.rename], .ok ())

/-! ## Gerber plot configuration (`Pcb2GcodePlugin.generate_gerber`)

The plot-parameter record as configured by the setter calls of the milling
plugin's `generate_gerber` (identical in the jlc plugin).  Fields carry
the prior (toolkit-default) values; the function overwrites exactly the
fields the source sets.  `SetUseGerberAttributes` appears only inside a
comment in the source, so `useGerberAttributes` is left untouched. -/

structure PlotParams where
  plotValue : Bool
  plotReference : Bool
  plotInvisibleText : Bool
  excludeEdgeLayer : Bool
  plotPadsOnSilkLayer : Bool
  useAuxOrigin : Bool
  autoScale : Bool
  scale : ℚ
  mirror : Bool
  negative : Bool
  useGerberProtelExtensions : Bool
  createGerberJobFile : Bool
  subtractMaskFromSilk : Bool
  useGerberX2format : Bool
  includeGerberNetlistInfo : Bool
  useGerberAttributes : Bool
deriving DecidableEq, Repr

/-- The sequence of `popt.Set*` calls of
`Pcb2GcodePlugin.generate_gerber`, applied to the plot options record
obtained from `pctl.GetPlotOptions()`. -/
def configureMillingGerber (p : PlotParams) : PlotParams :=
  { p with
    plotValue := false
    plotReference := true
    plotInvisibleText := false
    excludeEdgeLayer := true
    plotPadsOnSilkLayer := false
    useAuxOrigin := false
    autoScale := false
    scale := 1
    mirror := false
    negative := false
    useGerberProtelExtensions := true
    createGerberJobFile := false
    subtractMaskFromSilk := true
    useGerberX2format := false
    includeGerberNetlistInfo := false }

/-! ## A spec-side definition for the part-number rule

"last-non-empty-wins over iteration order": the running value is
overwritten by every non-empty entry. -/

def lastNonEmpty (l : List String) : String :=
  l.foldl (fun acc s => if s = "" then acc else s) ""

/-! ## Helper lemmas -/

theorem pySplitAux_no_sep (sep : Char) :
    ∀ (l cur : List Char), sep ∉ l → pySplitAux sep cur l = [cur.reverse ++ l]
  | [], cur, _ => by simp [pySplitAux]
  | c :: rest, cur, h => by
      have hc : c ≠ sep := fun hcs => h (hcs ▸ List.mem_cons_self c rest)
      have hrest : sep ∉ rest := fun hr => h (List.mem_cons_of_mem c hr)
      simp only [pySplitAux, if_neg hc]
      rw [pySplitAux_no_sep sep rest (c :: cur) hrest]
      simp

theorem pySplit_no_sep (s : String) (sep : Char) (h : sep ∉ s.data) :
    pySplit s sep = [s.data.asString] := by
  unfold pySplit
  rw [pySplitAux_no_sep sep s.data [] h]
  simp

theorem groupStep_pn (st : GroupState) (comp : BomComponent) (h : comp.ref ≠ "REF**") :
    (groupStep st comp).pn = pyOrString comp.lcsc st.pn := by
  unfold groupStep
  rw [if_neg h]
  split <;> rfl

theorem groupStep_sentinel (st : GroupState) (comp : BomComponent)
    (h : comp.ref = "REF**") : groupStep st comp = st := by
  unfold groupStep
  rw [if_pos h]

theorem groupStep_refs_mono (st : GroupState) (comp : BomComponent) (r : String)
    (h : r ∈ st.refs) : r ∈ (groupStep st comp).refs := by
  unfold groupStep
  split_ifs <;> simp [h]

theorem foldl_groupStep_refs_mono :
    ∀ (l : List BomComponent) (st : GroupState) (r : String), r ∈ st.refs →
      r ∈ (l.foldl groupStep st).refs
  | [], _, _, h => h
  | c :: l, st, r, h =>
      foldl_groupStep_refs_mono l (groupStep st c) r (groupStep_refs_mono st c r h)

theorem groupStep_good_included (st : GroupState) (comp : BomComponent)
    (h1 : comp.ref ≠ "REF**") (h2 : comp.lcsc ≠ "") (h3 : pyLower comp.lcsc ≠ "skip") :
    comp.ref ∈ (groupStep st comp).refs := by
  unfold groupStep
  rw [if_neg h1]
  have hor : pyOrString comp.lcsc st.pn = comp.lcsc := if_neg h2
  rw [hor, if_neg h3]
  simp

theorem foldl_groupStep_good_included :
    ∀ (l : List BomComponent) (st : GroupState) (comp : BomComponent), comp ∈ l →
      comp.ref ≠ "REF**" → comp.lcsc ≠ "" → pyLower comp.lcsc ≠ "skip" →
      comp.ref ∈ (l.foldl groupStep st).refs
  | [], _, _, h, _, _, _ => absurd h (List.not_mem_nil _)
  | c :: l, st, comp, h, h1, h2, h3 => by
      rcases List.mem_cons.mp h with hc | hl
      · subst hc
        exact foldl_groupStep_refs_mono l (groupStep st comp) comp.ref
          (groupStep_good_included st comp h1 h2 h3)
      · exact foldl_groupStep_good_included l (groupStep st c) comp hl h1 h2 h3

theorem foldl_groupStep_no_sentinel :
    ∀ (l : List BomComponent) (st : GroupState), "REF**" ∉ st.refs →
      "REF**" ∉ (l.foldl groupStep st).refs
  | [], _, h => h
  | c :: l, st, h => by
      refine foldl_groupStep_no_sentinel l (groupStep st c) ?_
      unfold groupStep
      split_ifs with h1 h2
      · exact h
      · exact h
      · intro hmem
        rcases List.mem_append.mp hmem with hm | hm
        · exact h hm
        · exact h1 (List.mem_singleton.mp hm).symm

theorem foldl_groupStep_pn_track :
    ∀ (l : List BomComponent) (st : GroupState),
      (l.foldl groupStep st).pn =
        (l.filter (fun c => c.ref != "REF**")).foldl
          (fun acc c => if c.lcsc = "" then acc else c.lcsc) st.pn
  | [], _ => rfl
  | c :: l, st => by
      by_cases h1 : c.ref = "REF**"
      · rw [List.foldl_cons, groupStep_sentinel st c h1,
          foldl_groupStep_pn_track l st]
        simp [List.filter_cons, h1]
      · rw [List.foldl_cons, foldl_groupStep_pn_track l (groupStep st c),
          groupStep_pn st c h1]
        simp [List.filter_cons, h1, pyOrString]

theorem rowOfGroup_designators (g : List BomComponent) (row : BomRow)
    (h : rowOfGroup g = .ok (some row)) : row.designators = (groupScan g).refs := by
  unfold rowOfGroup at h
  split_ifs at h
  · exact absurd h (by simp)
  · split at h
    · exact absurd h (by simp)
    · split at h
      · exact absurd h (by simp)
      · simp only [Except.ok.injEq, Option.some.injEq] at h
        rw [← h]

theorem rowOfGroup_lcsc (g : List BomComponent) (row : BomRow)
    (h : rowOfGroup g = .ok (some row)) : row.lcsc = (groupScan g).pn := by
  unfold rowOfGroup at h
  split_ifs at h
  · exact absurd h (by simp)
  · split at h
    · exact absurd h (by simp)
    · split at h
      · exact absurd h (by simp)
      · simp only [Except.ok.injEq, Option.some.injEq] at h
        rw [← h]

theorem generateBomRows_mem :
    ∀ (groups : List (List BomComponent)) (rows : List BomRow),
      generateBomRows groups = .ok rows → ∀ row ∈ rows,
        ∃ g ∈ groups, rowOfGroup g = .ok (some row)
  | [], rows, h, row, hrow => by
      simp only [generateBomRows, Except.ok.injEq] at h
      subst h
      exact absurd hrow (List.not_mem_nil _)
  | g :: gs, rows, h, row, hrow => by
      unfold generateBomRows at h
      rcases hg : rowOfGroup g with _ | r? <;> rw [hg] at h
      · exact absurd h (by simp)
      · rcases r? with _ | r
        · obtain ⟨g', hg', hrow'⟩ := generateBomRows_mem gs rows h row hrow
          exact ⟨g', List.mem_cons_of_mem g hg', hrow'⟩
        · rcases hgs : generateBomRows gs with _ | rest <;> rw [hgs] at h
          · exact absurd h (by simp)
          · simp only [Except.ok.injEq] at h
            subst h
            rcases List.mem_cons.mp hrow with hr | hr
            · exact ⟨g, List.mem_cons_self g gs, hr ▸ hg⟩
            · obtain ⟨g', hg', hrow'⟩ := generateBomRows_mem gs rest hgs row hr
              exact ⟨g', List.mem_cons_of_mem g hg', hrow'⟩

theorem positionRow_some (table : List (String × ℤ)) (m : PcbModule)
    (row : PositionRow) (h : positionRow table m = some row) :
    m.layerName = "F.Cu" ∧ m.ref ≠ "REF**" ∧
      row.designator = m.ref ∧
      row.midY = Rat.divInt (-m.centerY) 1000000 ∧
      row.midYStr = mmCell row.midY ∧
      row.rotation = computeRotation m.orientationDegrees (overrideLookup table m.ref) := by
  unfold positionRow at h
  split_ifs at h with h1 h2
  simp only [Option.some.injEq] at h
  subst h
  exact ⟨not_not.mp h1, h2, rfl, rfl, rfl, rfl⟩

theorem pyTrunc_intCast (d : ℤ) : pyTrunc (d : ℚ) = d := by
  simp [pyTrunc, Rat.num_intCast, Rat.den_intCast, Int.tdiv_one]

/-! ## Concrete inputs used by the claim theorems and their witnesses -/

def c1Table : List (String × ℤ) := [("R1", 90)]

def c1Module : PcbModule :=
  { ref := "R1", layerName := "F.Cu", centerX := 1000000, centerY := 5000000,
    orientationDegrees := 10 }

def c1Row : PositionRow :=
  { designator := "R1", midX := 1, midXStr := "1mm", midY := -5, midYStr := "-5mm",
    layer := "T", rotation := 100 }

def skipComp : BomComponent :=
  { ref := "R1", value := "10k", description := "Resistor",
    footprint := "Resistor_SMD:R_0603", lcsc := "skip" }

def emptyPnComp : BomComponent :=
  { ref := "R2", value := "10k", description := "Resistor",
    footprint := "Resistor_SMD:R_0603", lcsc := "" }

def goodPnComp : BomComponent :=
  { ref := "R3", value := "10k", description := "Resistor",
    footprint := "Resistor_SMD:R_0603", lcsc := "C99999" }

def c3Groups : List (List BomComponent) :=
  [[{ ref := "REF**", value := "10k", description := "Resistor",
      footprint := "Resistor_SMD:R_0603", lcsc := "C11111" },
    { ref := "R5", value := "10k", description := "Resistor",
      footprint := "Resistor_SMD:R_0603", lcsc := "C12345" }]]

def c3Row : BomRow :=
  { comment := "10k Resistor", designators := ["R5"], footprint := "R_0603",
    lcsc := "C12345" }

def c3Modules : List PcbModule :=
  [{ ref := "REF**", layerName := "F.Cu", centerX := 0, centerY := 0,
     orientationDegrees := 0 },
   { ref := "C1", layerName := "F.Cu", centerX := 1000000, centerY := 2000000,
     orientationDegrees := 90 }]

def c3PosRow : PositionRow :=
  { designator := "C1", midX := 1, midXStr := "1mm", midY := -2, midYStr := "-2mm",
    layer := "T", rotation := 90 }

def c4Group : List BomComponent :=
  [{ ref := "R1", value := "10k", description := "Resistor",
     footprint := "Resistor_SMD:R_0603", lcsc := "C12345" },
   { ref := "R2", value := "10k", description := "Resistor",
     footprint := "Resistor_SMD:R_0603", lcsc := "" }]

def c4Row : BomRow :=
  { comment := "10k Resistor", designators := ["R1", "R2"], footprint := "R_0603",
    lcsc := "C12345" }

def jlcMalformedEnv : JlcEnv :=
  { overrideFile := .malformed, groups := [], modules := [] }

def c6Env : JlcEnv :=
  { overrideFile := .absent, groups := [], modules := [] }

def c7Module : PcbModule :=
  { ref := "C7", layerName := "F.Cu", centerX := 0, centerY := 5000000,
    orientationDegrees := 0 }

def c7Row : PositionRow :=
  { designator := "C7", midX := 0, midXStr := "0mm", midY := -5, midYStr := "-5mm",
    layer := "T", rotation := 0 }

def c7BottomModule : PcbModule :=
  { ref := "C8", layerName := "B.Cu", centerX := 0, centerY := 5000000,
    orientationDegrees := 0 }

def defaultPlotParams : PlotParams :=
  { plotValue := false, plotReference := false, plotInvisibleText := false,
    excludeEdgeLayer := false, plotPadsOnSilkLayer := false, useAuxOrigin := false,
    autoScale := false, scale := 0, mirror := false, negative := false,
    useGerberProtelExtensions := false, createGerberJobFile := false,
    subtractMaskFromSilk := false, useGerberX2format := false,
    includeGerberNetlistInfo := false, useGerberAttributes := false }

def c10Comp : BomComponent :=
  { ref := "R9", value := "10k", description := "Resistor", footprint := "R_0603",
    lcsc := "C12345" }

/-! ## Claim theorems -/

/-- C1: every emitted placement row's rotation equals
`(360 + trunc(board_rotation) + override(ref)) mod 360` with truncation
toward zero; for every board rotation and override the result lies in
`[0, 360)`; and for integer rotations the computation is 360-periodic. -/
theorem jlc_rotation_normalised (table : List (String × ℤ)) (m : PcbModule)
    (row : PositionRow) (h : positionRow table m = some row) :
    row.rotation = (360 + pyTrunc m.orientationDegrees + overrideLookup table m.ref) % 360 ∧
    (∀ (d : ℚ) (o : ℤ), 0 ≤ computeRotation d o ∧ computeRotation d o < 360) ∧
    (∀ (d o : ℤ), computeRotation (d : ℚ) o = computeRotation ((d : ℚ) + 360) o) := by
  refine ⟨(positionRow_some table m row h).2.2.2.2.2, ?_, ?_⟩
  · intro d o
    unfold computeRotation
    omega
  · intro d o
    unfold computeRotation
    have h360 : ((d : ℚ) + 360) = ((d + 360 : ℤ) : ℚ) := by push_cast; ring
    rw [pyTrunc_intCast, h360, pyTrunc_intCast]
    omega

/-- C1 witness: override table `{"R1": 90}`, module `R1` on the top side at
rotation 10° yields the row with rotation `(360 + 10 + 90) mod 360 = 100`. -/
theorem jlc_rotation_normalised_witness :
    c1Row.rotation =
      (360 + pyTrunc c1Module.orientationDegrees + overrideLookup c1Table c1Module.ref) % 360 :=
  (jlc_rotation_normalised c1Table c1Module c1Row (by decide)).1

/-- C2 counterexample: in a group whose first member has part-number
`"skip"` and whose second member `R2` has an empty part-number (so `R2`'s
own resolved value is neither empty-sentinel nor `"skip"`-marked), the
group emits no row at all — `R2` is dropped.  The same `R2` alone is
emitted.  So a `"skip"` member does affect another member's inclusion,
refuting the claim as stated. -/
theorem jlc_skip_scope_counterexample :
    generateBomRows [[skipComp, emptyPnComp]] = .ok [] ∧
    generateBomRows [[emptyPnComp]] =
      .ok [{ comment := "10k Resistor", designators := ["R2"], footprint := "R_0603",
             lcsc := "" }] :=
  ⟨rfl, rfl⟩

/-- C2 amended: a `"skip"` member suppresses only its own reference at its
own iteration step (the reference list is unchanged by that step), and a
member whose own part-number field is non-empty and not `"skip"` is always
included; the suppression can spread only to later members whose own
part-number field is empty, because those inherit the running `"skip"`
value. -/
theorem jlc_skip_scope :
    (∀ (st : GroupState) (comp : BomComponent), comp.ref ≠ "REF**" →
       pyLower (pyOrString comp.lcsc st.pn) = "skip" →
       (groupStep st comp).refs = st.refs) ∧
    (∀ (group : List BomComponent) (comp : BomComponent), comp ∈ group →
       comp.ref ≠ "REF**" → comp.lcsc ≠ "" → pyLower comp.lcsc ≠ "skip" →
       comp.ref ∈ (groupScan group).refs) := by
  constructor
  · intro st comp h1 h2
    unfold groupStep
    rw [if_neg h1, if_pos h2]
  · intro group comp hmem h1 h2 h3
    unfold groupScan
    exact foldl_groupStep_good_included group _ comp hmem h1 h2 h3

/-- C2 witness: the `"skip"` member leaves the reference list unchanged at
its step, and a valid member after a `"skip"` member is still included. -/
theorem jlc_skip_scope_witness :
    (groupStep { refs := [], pn := "", c := none } skipComp).refs = [] ∧
    "R3" ∈ (groupScan [skipComp, goodPnComp]).refs :=
  ⟨jlc_skip_scope.1 { refs := [], pn := "", c := none } skipComp (by decide) (by decide),
   jlc_skip_scope.2 [skipComp, goodPnComp] goodPnComp (by decide) (by decide) (by decide)
     (by decide)⟩

/-- C3: the sentinel reference `"REF**"` never appears among the
designators of any BOM row, and never as the designator of any placement
row, for every input. -/
theorem jlc_sentinel_excluded :
    (∀ (groups : List (List BomComponent)) (rows : List BomRow),
       generateBomRows groups = .ok rows → ∀ row ∈ rows,
         "REF**" ∉ row.designators) ∧
    (∀ (table : List (String × ℤ)) (modules : List PcbModule) (row : PositionRow),
       row ∈ generatePositionRows table modules → row.designator ≠ "REF**") := by
  constructor
  · intro groups rows h row hrow
    obtain ⟨g, _, hrowg⟩ := generateBomRows_mem groups rows h row hrow
    rw [rowOfGroup_designators g row hrowg]
    unfold groupScan
    exact foldl_groupStep_no_sentinel g { refs := [], pn := "", c := none } (by simp)
  · intro table modules row hrow
    obtain ⟨m, _, hm⟩ := List.mem_filterMap.mp hrow
    obtain ⟨_, hne, hdes, _⟩ := positionRow_some table m row hm
    rw [hdes]
    exact hne

/-- C3 witness: a group and a module list each containing a `"REF**"`
entry; the emitted BOM row and placement row both exclude it. -/
theorem jlc_sentinel_excluded_witness :
    "REF**" ∉ c3Row.designators ∧ c3PosRow.designator ≠ "REF**" :=
  ⟨jlc_sentinel_excluded.1 c3Groups [c3Row] rfl c3Row (List.mem_singleton.mpr rfl),
   jlc_sentinel_excluded.2 [] c3Modules c3PosRow (by decide)⟩

/-- C4: every emitted BOM row's part-number is the last non-empty LCSC
field over the group's iteration order, restricted to non-sentinel members
(last-non-empty-wins); and the two-component scenario (`"C12345"` then
empty) yields one row with both references comma-joined and part-number
`"C12345"`. -/
theorem jlc_bom_last_non_empty_pn :
    (∀ (g : List BomComponent) (row : BomRow), rowOfGroup g = .ok (some row) →
       row.lcsc =
         lastNonEmpty ((g.filter fun c => c.ref != "REF**").map BomComponent.lcsc)) ∧
    generateBomRows [c4Group] = .ok [c4Row] ∧
    bomCsvRow c4Row = ["10k Resistor", "R1,R2", "R_0603", "C12345"] := by
  refine ⟨?_, rfl, rfl⟩
  intro g row h
  rw [rowOfGroup_lcsc g row h]
  unfold groupScan
  rw [foldl_groupStep_pn_track]
  unfold lastNonEmpty
  rw [List.foldl_map]

/-- C4 witness: the scenario group itself satisfies the
last-non-empty-wins characterisation. -/
theorem jlc_bom_last_non_empty_pn_witness :
    c4Row.lcsc =
      lastNonEmpty ((c4Group.filter fun c => c.ref != "REF**").map BomComponent.lcsc) :=
  jlc_bom_last_non_empty_pn.1 c4Group c4Row rfl

/-- C5 counterexample: with a present-but-malformed override file, the run
does end in a parse error, but the gerber, drill, rename, zip and BOM
steps have all executed before it — refuting "no gerber, drill, rename,
zip, or BOM step executes". -/
theorem jlc_parse_error_order_counterexample :
    JlcStep.gerber ∈ (jlcRun jlcMalformedEnv).1 ∧
    JlcStep.drill ∈ (jlcRun jlcMalformedEnv).1 ∧
    JlcStep.rename ∈ (jlcRun jlcMalformedEnv).1 ∧
    JlcStep.zipfile ∈ (jlcRun jlcMalformedEnv).1 ∧
    JlcStep.bom ∈ (jlcRun jlcMalformedEnv).1 ∧
    (jlcRun jlcMalformedEnv).2.2 = .error .parseError :=
  ⟨by decide, by decide, by decide, by decide, by decide, rfl⟩

/-- C5 amended: a malformed override file makes the run fail with a
ParseError raised in the placement step, which runs last: gerber, drill,
rename, zip and BOM have already executed, no placement row is written,
and the placement step never completes. -/
theorem jlc_parse_error_aborts_position (env : JlcEnv)
    (h : env.overrideFile = .malformed)
    (hb : (generateBomRows env.groups).isOk = true) :
    (jlcRun env).1 = [JlcStep.prepare, JlcStep.gerber, JlcStep.drill, JlcStep.rename,
                      JlcStep.zipfile, JlcStep.bom] ∧
    (jlcRun env).2.1 = [] ∧
    (jlcRun env).2.2 = .error .parseError ∧
    JlcStep.position ∉ (jlcRun env).1 := by
  obtain ⟨rows, hg⟩ : ∃ rows, generateBomRows env.groups = .ok rows := by
    rcases hge : generateBomRows env.groups with e | rows
    · rw [hge] at hb
      exact absurd hb (by simp [Except.isOk, Except.toBool])
    · exact ⟨rows, rfl⟩
  have hrun : jlcRun env =
      ([JlcStep.prepare, JlcStep.gerber, JlcStep.drill, JlcStep.rename, JlcStep.zipfile]
        ++ [JlcStep.bom], [], Except.error PyError.parseError) := by
    unfold jlcRun
    rw [hg, h]
    rfl
  rw [hrun]
  exact ⟨rfl, rfl, rfl, by decide⟩

/-- C5 witness: the malformed-override environment realises the amended
behaviour. -/
theorem jlc_parse_error_aborts_position_witness :
    (jlcRun jlcMalformedEnv).1 = [JlcStep.prepare, JlcStep.gerber, JlcStep.drill,
                                  JlcStep.rename, JlcStep.zipfile, JlcStep.bom] ∧
    (jlcRun jlcMalformedEnv).2.1 = [] ∧
    (jlcRun jlcMalformedEnv).2.2 = .error .parseError ∧
    JlcStep.position ∉ (jlcRun jlcMalformedEnv).1 :=
  jlc_parse_error_aborts_position jlcMalformedEnv rfl rfl

/-- C6: an absent override file loads as the empty table; a run with an
absent override file behaves exactly like one with an empty table and ends
without error (given the BOM step itself raises nothing); and every
reference absent from the table gets override 0. -/
theorem jlc_override_missing_defaults :
    loadOverrides .absent = .ok [] ∧
    (∀ env : JlcEnv, env.overrideFile = .absent →
       jlcRun env = jlcRun { env with overrideFile := .wellFormed [] }) ∧
    (∀ env : JlcEnv, env.overrideFile = .absent →
       (generateBomRows env.groups).isOk = true → (jlcRun env).2.2 = .ok ()) ∧
    (∀ (table : List (String × ℤ)) (r : String), (∀ p ∈ table, p.1 ≠ r) →
       overrideLookup table r = 0) := by
  refine ⟨rfl, ?_, ?_, ?_⟩
  · intro env h
    cases hg : generateBomRows env.groups <;>
      simp [jlcRun, h, hg, loadOverrides]
  · intro env h hb
    obtain ⟨rows, hg⟩ : ∃ rows, generateBomRows env.groups = .ok rows := by
      rcases hge : generateBomRows env.groups with e | rows
      · rw [hge] at hb
        exact absurd hb (by simp [Except.isOk, Except.toBool])
      · exact ⟨rows, rfl⟩
    simp [jlcRun, h, hg, loadOverrides]
  · intro table r h
    have hf : table.find? (fun p => p.1 == r) = none :=
      List.find?_eq_none.mpr fun p hp => by simpa using h p hp
    simp [overrideLookup, hf]

/-- C6 witness: the empty-environment run with an absent file, and a
two-entry-free lookup. -/
theorem jlc_override_missing_defaults_witness :
    jlcRun c6Env = jlcRun { c6Env with overrideFile := .wellFormed [] } ∧
    (jlcRun c6Env).2.2 = .ok () ∧
    overrideLookup [("R1", 90)] "R2" = 0 :=
  ⟨jlc_override_missing_defaults.2.1 c6Env rfl,
   jlc_override_missing_defaults.2.2.1 c6Env rfl rfl,
   jlc_override_missing_defaults.2.2.2 [("R1", 90)] "R2" (by decide)⟩

/-- C7: every emitted placement row's Mid Y value is the native Y
coordinate divided by 1,000,000 with its sign inverted, rendered with an
`"mm"` suffix (Python's float formatting abstracted to exact rational
rendering); modules not on the top side produce no row; and a module at
native Y = 5,000,000 yields the cell `"-5mm"`, with a leading `"-"`. -/
theorem jlc_midY_inverted :
    (∀ (table : List (String × ℤ)) (m : PcbModule) (row : PositionRow),
       positionRow table m = some row →
         row.midY = -((m.centerY : ℚ) / 1000000) ∧ row.midYStr = mmCell row.midY) ∧
    (∀ (table : List (String × ℤ)) (m : PcbModule), m.layerName ≠ "F.Cu" →
       positionRow table m = none) ∧
    (positionRow [] c7Module = some c7Row ∧ c7Row.midYStr = "-5mm" ∧
     c7Row.midYStr.data.head? = some '-') := by
  refine ⟨?_, ?_, by decide, by decide, by decide⟩
  · intro table m row h
    obtain ⟨_, _, _, hy, hstr, _⟩ := positionRow_some table m row h
    refine ⟨?_, hstr⟩
    rw [hy, Rat.divInt_eq_div]
    push_cast
    ring
  · intro table m h
    unfold positionRow
    rw [if_pos h]

/-- C7 witness: the top-side module at native Y = 5,000,000 and the
bottom-side module, through the theorem itself. -/
theorem jlc_midY_inverted_witness :
    (c7Row.midY = -((c7Module.centerY : ℚ) / 1000000) ∧
     c7Row.midYStr = mmCell c7Row.midY) ∧
    positionRow [] c7BottomModule = none :=
  ⟨jlc_midY_inverted.1 [] c7Module c7Row (by decide),
   jlc_midY_inverted.2.1 [] c7BottomModule (by decide)⟩

/-- C8 counterexample: on a concrete initial plot-parameter record, the
milling gerber configuration sets use-auxiliary-origin to false (claim
says true), subtract-mask-from-silk to true (claim says false),
exclude-edge-layer to true (claim says false), and never enables gerber
attributes (the call is commented out in the source). -/
theorem milling_gerber_profile_counterexample :
    ¬((configureMillingGerber defaultPlotParams).useAuxOrigin = true ∧
      (configureMillingGerber defaultPlotParams).subtractMaskFromSilk = false ∧
      (configureMillingGerber defaultPlotParams).excludeEdgeLayer = false ∧
      (configureMillingGerber defaultPlotParams).useGerberAttributes = true) := by
  decide

/-- C8 amended: the milling pipeline's gerber generation configures the
plotter with use auxiliary origin = false, subtract mask from silk = true,
exclude edge layer from other layers = true, and leaves the
gerber-attributes flag at whatever value the plot options already had
(the enabling call is commented out). -/
theorem milling_gerber_profile (p : PlotParams) :
    (configureMillingGerber p).useAuxOrigin = false ∧
    (configureMillingGerber p).subtractMaskFromSilk = true ∧
    (configureMillingGerber p).excludeEdgeLayer = true ∧
    (configureMillingGerber p).useGerberAttributes = p.useGerberAttributes :=
  ⟨rfl, rfl, rfl, rfl⟩

/-- C9: the milling module imports no `shutil`, so `Run` stops in
`prepare` with a NameError and the gerber, drill and rename steps never
execute. -/
theorem pcb2gcode_prepare_name_error :
    "shutil" ∉ pcb2gcodeModuleImports ∧
    pcb2gcodeRun pcb2gcodeModuleImports = ([], .error (.nameError "shutil")) ∧
    MillStep.gerber ∉ (pcb2gcodeRun pcb2gcodeModuleImports).1 ∧
    MillStep.drill ∉ (pcb2gcodeRun pcb2gcodeModuleImports).1 ∧
    MillStep.rename ∉ (pcb2gcodeRun pcb2gcodeModuleImports).1 :=
  ⟨by decide, rfl, by decide, by decide, by decide⟩

/-- C10: a footprint without a colon makes the BOM footprint access
`split(':')[1]` raise (modelled as `none`), which aborts the BOM export
with an IndexError; a footprint with several colons yields only the second
segment, not everything after the first colon. -/
theorem jlc_bom_footprint_colon :
    (∀ s : String, ':' ∉ s.data → bomFootprint s = none) ∧
    bomFootprint "a:b:c" = some "b" ∧
    ("b" : String) ≠ "b:c" ∧
    generateBomRows [[c10Comp]] = .error .indexError := by
  refine ⟨?_, rfl, by decide, rfl⟩
  intro s h
  unfold bomFootprint
  rw [pySplit_no_sep s ':' h]
  rfl

/-- C10 witness: the colon-free footprint `"R_0603"`. -/
theorem jlc_bom_footprint_colon_witness : bomFootprint "R_0603" = none :=
  jlc_bom_footprint_colon.1 "R_0603" (by decide)

end KicadPlugins
